import Mathlib

/-!
Shallow embedding of `termius_rpc.py` (Termius Discord Rich Presence).

The program infers what the Termius SSH client is doing from three
observation channels (process list, TCP connection table, UI tree) and
publishes a presence status.  We embed, faithfully to the source:

* `is_generic_label`                  (source `_is_generic_label`)
* `get_active_session_via_net`        (source `_get_active_session_via_net`)
* `get_active_session_via_ui`         (source `_get_active_session_via_ui`)
* `get_termius_sessions`              (the session fusion engine)
* `identityKey` / `trackStep`         (continuity logic inlined in `main`)
* `presentation`                      (mode to state/details mapping in `main`)

External effects (psutil, uiautomation, socket, Discord RPC) are modelled
as explicit inputs: the process/connection snapshot becomes lists of
connection records, the UI tree becomes a window record with a list of
control records, reverse DNS becomes an oracle `String → Option String`,
and the foreground check becomes a `Bool` parameter.
-/

/-! ### Python string primitives (ASCII fragment used by the source) -/

/-- Whitespace characters removed by Python `str.strip()` (ASCII fragment). -/
def isWsChar (c : Char) : Bool :=
  c = ' ' || c = '\t' || c = '\n' || c = '\r' || c = '\x0b' || c = '\x0c'

/-- Python `str.strip()` on a character list: drop whitespace from both ends. -/
def trimList (l : List Char) : List Char :=
  ((l.dropWhile isWsChar).reverse.dropWhile isWsChar).reverse

/-- ASCII lower-casing of one character, as Python `str.lower()` does for ASCII. -/
def lowerC (c : Char) : Char :=
  match c with
  | 'A' => 'a' | 'B' => 'b' | 'C' => 'c' | 'D' => 'd' | 'E' => 'e' | 'F' => 'f'
  | 'G' => 'g' | 'H' => 'h' | 'I' => 'i' | 'J' => 'j' | 'K' => 'k' | 'L' => 'l'
  | 'M' => 'm' | 'N' => 'n' | 'O' => 'o' | 'P' => 'p' | 'Q' => 'q' | 'R' => 'r'
  | 'S' => 's' | 'T' => 't' | 'U' => 'u' | 'V' => 'v' | 'W' => 'w' | 'X' => 'x'
  | 'Y' => 'y' | 'Z' => 'z' | c => c

/-- ASCII upper-casing of one character, as Python `str.upper()` does for ASCII. -/
def upperC (c : Char) : Char :=
  match c with
  | 'a' => 'A' | 'b' => 'B' | 'c' => 'C' | 'd' => 'D' | 'e' => 'E' | 'f' => 'F'
  | 'g' => 'G' | 'h' => 'H' | 'i' => 'I' | 'j' => 'J' | 'k' => 'K' | 'l' => 'L'
  | 'm' => 'M' | 'n' => 'N' | 'o' => 'O' | 'p' => 'P' | 'q' => 'Q' | 'r' => 'R'
  | 's' => 'S' | 't' => 'T' | 'u' => 'U' | 'v' => 'V' | 'w' => 'W' | 'x' => 'X'
  | 'y' => 'Y' | 'z' => 'Z' | c => c

/-- Python `str.strip()` on strings. -/
def pystrip (s : String) : String := String.mk (trimList s.data)

/-- Python `str.lower()` on strings (ASCII fragment). -/
def pylower (s : String) : String := String.mk (s.data.map lowerC)

/-- Python `str.upper()` on strings (ASCII fragment). -/
def pyupper (s : String) : String := String.mk (s.data.map upperC)

/-- Membership of a character sequence inside another (Python `needle in hay`). -/
def listContainsSub (needle : List Char) : List Char → Bool
  | [] => needle.isEmpty
  | c :: t => needle.isPrefixOf (c :: t) || listContainsSub needle t

/-- Python substring test `needle in hay` on strings. -/
def containsSub (hay needle : String) : Bool :=
  listContainsSub needle.data hay.data

/-- The characters after the first occurrence of `sep`, if `sep` occurs
(Python `hay.split(sep, 1)[1]` when `sep in hay`). -/
def splitAfterFirst (sep : List Char) : List Char → Option (List Char)
  | [] => if sep.isEmpty then some [] else none
  | c :: t =>
    if sep.isPrefixOf (c :: t) then some ((c :: t).drop sep.length)
    else splitAfterFirst sep t

/-- Split at the first `'@'` (Python `label.split(chr 64, 1)` when present):
returns the parts before and after the first `'@'`, or `none` when absent. -/
def splitAtFirstAt : List Char → Option (List Char × List Char)
  | [] => none
  | c :: t =>
    if c = '@' then some ([], t)
    else
      match splitAtFirstAt t with
      | some (a, b) => some (c :: a, b)
      | none => none

/-! ### Label Classifier (source `_is_generic_label`, lines 28-37) -/

/-- The fixed set of generic chrome/menu labels from `_is_generic_label`. -/
def genericSet : List String :=
  ["termius", "live", "close", "minimize", "maximize", "settings", "search",
   "new tab", "new host", "sftp", "files", "terminal", "ssh", "hosts", "groups",
   "local", "actions", "filter", "root"]

/-- Source `_is_generic_label`: strip, lower-case, empty or in the fixed set. -/
def is_generic_label (text : String) : Bool :=
  let t := String.mk ((trimList text.data).map lowerC)
  if t = "" then true else genericSet.contains t

example : is_generic_label "" = true := by decide
example : is_generic_label "  TerMius " = true := by decide
example : is_generic_label "prod-db" = false := by decide
example : is_generic_label " root\t" = true := by decide

/-! ### Data model -/

/-- The session value object: the dictionaries built by the readers and the
fusion engine all use these keys.  Dictionaries that lack the `ip` key
(every UI-produced session and the SFTP fusion result) are modelled with
`ip = ""`, matching `session.get(..) or ''` at every use site. -/
structure Session where
  hostname : String
  username : String
  ip : String
  port : String
  protocol : String
  mode : String
deriving DecidableEq, Repr

/-- The three privacy flags loaded from `config.json` (module-level globals
`PREFER_UI_LABEL`, `EXPOSE_IP_IN_PRESENCE`, `ALLOW_REVERSE_DNS`). -/
structure PrivacyPolicy where
  prefer_ui_label : Bool
  expose_ip_in_presence : Bool
  allow_reverse_dns : Bool
deriving DecidableEq, Repr

/-! ### Network Session Reader (source `_get_active_session_via_net`, lines 131-201) -/

/-- One row of the system-wide `psutil.net_connections(kind='tcp')` table, as
seen by the reader: whether its pid is one of the Termius pids, whether its
status is `CONN_ESTABLISHED`, and its remote address (ip, port) when present. -/
structure Conn where
  ownedByApp : Bool
  established : Bool
  raddr : Option (String × Nat)
deriving DecidableEq, Repr

/-- One row of a per-process `proc.connections(kind='tcp')` listing used by the
fallback scan (these rows belong to the process, so there is no pid filter). -/
structure PConn where
  established : Bool
  raddr : Option (String × Nat)
deriving DecidableEq, Repr

/-- The known SSH-family remote ports accepted by the reader. -/
def sshPortSet : List Nat := [22, 2222, 2200, 2022]

/-- First pass of `_get_active_session_via_net`: scan the system-wide
connection table for the first established Termius-owned connection whose
remote port is in `sshPortSet` (lines 141-158). -/
def findCandidate : List Conn → Option (String × Nat)
  | [] => none
  | c :: rest =>
    if ¬ c.ownedByApp then findCandidate rest
    else if ¬ c.established then findCandidate rest
    else
      match c.raddr with
      | none => findCandidate rest
      | some (rip, rport) =>
        if rport ∈ sshPortSet then some (rip, rport) else findCandidate rest

/-- Scan of a single process's connection list in the fallback pass
(lines 167-178): first established connection on an SSH-family port. -/
def findProcCandidate : List PConn → Option (String × Nat)
  | [] => none
  | c :: rest =>
    if ¬ c.established then findProcCandidate rest
    else
      match c.raddr with
      | none => findProcCandidate rest
      | some (rip, rport) =>
        if rport ∈ sshPortSet then some (rip, rport) else findProcCandidate rest

/-- Fallback pass over each Termius process's own connection listing
(lines 160-178); a process whose listing raised `AccessDenied` contributes
the empty list. -/
def findFallback : List (List PConn) → Option (String × Nat)
  | [] => none
  | p :: ps =>
    match findProcCandidate p with
    | some c => some c
    | none => findFallback ps

/-- Source `_get_active_session_via_net` (lines 131-201).  `sys` is the
system-wide connection table, `fb` the per-process fallback listings, and
`revDns` the reverse-DNS oracle (`socket.gethostbyaddr`), `none` meaning the
lookup raised. -/
def get_active_session_via_net (sys : List Conn) (fb : List (List PConn))
    (pol : PrivacyPolicy) (revDns : String → Option String) : Option Session :=
  let candidate :=
    match findCandidate sys with
    | some c => some c
    | none => findFallback fb
  match candidate with
  | none => none
  | some (rip, rport) =>
    let host_val :=
      if pol.expose_ip_in_presence then rip
      else if pol.allow_reverse_dns then
        match revDns rip with
        | some h => h
        | none => ""
      else ""
    some { hostname := host_val
           ip := rip
           username := ""
           port := toString rport
           protocol := if rport ∈ sshPortSet then "SSH" else "TCP"
           mode := "SSH" }

/-! ### UI Session Reader (source `_get_active_session_via_ui`, lines 203-417) -/

/-- A bounding rectangle of a UI control (`BoundingRectangle`). -/
structure Rect where
  top : Int
  left : Int
deriving DecidableEq, Repr

/-- One control of the UI-automation descendant scan.  Dynamic property
probing in the source collapses to explicit optional fields: `isSelected`
is `false` when the control has no selection pattern; `rect` is `none`
when `BoundingRectangle` is unavailable; `siblingNames` are the names of
the parent's children in order (`[]` when the parent is unavailable). -/
structure Ctrl where
  controlTypeName : String
  name : String
  isSelected : Bool
  rect : Option Rect
  siblingNames : List String
deriving DecidableEq, Repr

/-- The located Termius top-level window: its title (`win.Name`) and its
descendant controls in traversal order. -/
structure Window where
  title : String
  descendants : List Ctrl
deriving DecidableEq, Repr

/-- Title-suffix label extraction (lines 218-222): the part of the stripped
title after the first `\x22 - \x22`, stripped, if non-empty and non-generic. -/
def titleLabel (title : String) : String :=
  let win_title := pystrip title
  match splitAfterFirst [' ', '-', ' '] win_title.data with
  | some rest =>
    let possible := pystrip (String.mk rest)
    if possible ≠ "" ∧ ¬ is_generic_label possible then possible else ""
  | none => ""

/-- Preliminary mode from window-title keywords (lines 223-233), a priority
chain of `elif`s over the lower-cased raw title. -/
def titleKeywordMode (title_low : String) : String :=
  if ["settings", "account", "preferences", "keychain", "port forwarding",
      "known hosts"].any (fun k => containsSub title_low k) then "SETTINGS"
  else if ["hosts", "host list", "groups"].any (fun k => containsSub title_low k) then
    "BROWSING"
  else if containsSub title_low "sftp" || containsSub title_low "files" then "SFTP"
  else if containsSub title_low "snippets" then "SNIPPETS"
  else if containsSub title_low "logs" || containsSub title_low "log" then "LOGS"
  else "OTHER"

/-- The case-sensitive skip set of the descendant scan (lines 243-248). -/
def skip_set : List String :=
  ["Termius", "LIVE", "Close", "Minimize", "Maximize",
   "Settings", "Search", "New Tab", "New Host",
   "SFTP", "Files", "Terminal", "SSH", "Hosts", "Groups",
   "Local", "Actions", "Filter", "root"]

/-- Keywords excluding a name from being the `candidate_host` (line 262). -/
def candidateKeywords : List String :=
  ["sftp", "files", "terminal", "ssh", "settings", "hosts", "groups",
   "local", "actions", "filter", "root"]

/-- The trailing per-control mode refinement (lines 284-292): independent
`if`s over the lower-cased name, later families overriding earlier ones. -/
def modeKeywordUpdate (low : String) (mode : String) : String :=
  let m1 := if ["hosts", "new host", "groups"].any (fun k => containsSub low k) then
    "BROWSING" else mode
  let m2 := if ["settings", "account", "subscription", "appearance", "keychain",
      "port forwarding", "known hosts"].any (fun k => containsSub low k) then
    "SETTINGS" else m1
  let m3 := if containsSub low "snippets" then "SNIPPETS" else m2
  if containsSub low "logs" || low = "log" then "LOGS" else m3

/-- Mutable state of the descendant scan loop. -/
structure ScanSt where
  label_text : String
  mode : String
  candidate_host : String
deriving DecidableEq, Repr

/-- The descendant scan loop (lines 252-294).  Mirrors the source's control
flow: skip non tab/text/button controls, skip empty or skip-set names; for
alphabetic names of length at most 60 update `candidate_host`, honour a
selected control as an immediate label (with `break`), otherwise adopt the
first such name as the label; finally refine `mode` from keyword families. -/
def scanCtrls (st : ScanSt) : List Ctrl → ScanSt
  | [] => st
  | c :: rest =>
    if ¬ (c.controlTypeName ∈ ["TabItemControl", "TextControl", "ButtonControl"]) then
      scanCtrls st rest
    else
      let name := pystrip c.name
      if name = "" ∨ name ∈ skip_set then scanCtrls st rest
      else
        let step :=
          if (name.data.any Char.isAlpha) ∧ name.length ≤ 60 then
            let lowname := pylower name
            let cand :=
              if ¬ (candidateKeywords.any (fun k => containsSub lowname k)) then name
              else st.candidate_host
            if c.isSelected then
              ({ label_text := if ¬ (name ∈ skip_set) then name else st.label_text
                 mode := if containsSub lowname "sftp" || containsSub lowname "files" then
                   "SFTP" else st.mode
                 candidate_host := cand }, true)
            else if st.label_text = "" then
              ({ label_text := if ¬ (name ∈ skip_set) then name else st.label_text
                 mode := if containsSub lowname "sftp" || containsSub lowname "files" ||
                     containsSub lowname "transfer" then "SFTP" else st.mode
                 candidate_host := cand }, false)
            else ({ st with candidate_host := cand }, false)
          else (st, false)
        if step.2 then step.1
        else
          let low := pylower name
          scanCtrls { step.1 with mode := modeKeywordUpdate low step.1.mode } rest

/-- SFTP fallback (a), lines 296-322: among non-generic tab/button/text
controls whose rectangle lies in the top 140-pixel band, the name of the one
with the strictly largest `left` coordinate. -/
def fallbackTopbarGo : List Ctrl → String → Int → String
  | [], best, _ => best
  | c :: rest, best, bestLeft =>
    let nm := pystrip c.name
    if nm = "" ∨ is_generic_label nm then fallbackTopbarGo rest best bestLeft
    else if ¬ (c.controlTypeName ∈ ["TabItemControl", "ButtonControl", "TextControl"]) then
      fallbackTopbarGo rest best bestLeft
    else
      match c.rect with
      | none => fallbackTopbarGo rest best bestLeft
      | some r =>
        if r.top > 140 then fallbackTopbarGo rest best bestLeft
        else if r.left > bestLeft then fallbackTopbarGo rest nm r.left
        else fallbackTopbarGo rest best bestLeft

/-- SFTP fallback (a) entry point (`rightmost_name` starts empty,
`rightmost_left` starts at -1). -/
def fallbackTopbar (ds : List Ctrl) : String :=
  fallbackTopbarGo ds "" (-1)

/-- SFTP fallback (b), lines 324-339: the non-generic alphabetic names of
tab controls, in traversal order (the caller takes the last one). -/
def fallbackTabNames (ds : List Ctrl) : List String :=
  ds.filterMap (fun c =>
    if c.controlTypeName ≠ "TabItemControl" then none
    else
      let nm := pystrip c.name
      if nm ≠ "" ∧ ¬ is_generic_label nm ∧ nm.data.any Char.isAlpha then some nm
      else none)

/-- First non-empty, non-generic name in a list (inner loop of fallback (c)). -/
def firstNonGeneric : List String → String
  | [] => ""
  | n :: t => if n ≠ "" ∧ ¬ is_generic_label n then n else firstNonGeneric t

/-- SFTP fallback (c), lines 341-359: find the control literally named
"sftp" and take the first non-generic sibling name after it. -/
def fallbackSftpSiblings (ds : List Ctrl) : String :=
  match ds.find? (fun c => pylower (pystrip c.name) = "sftp") with
  | none => ""
  | some c =>
    let names := c.siblingNames.map pystrip
    match (names.map pylower).findIdx? (fun n => n = "sftp") with
    | none => ""
    | some idx => firstNonGeneric (names.drop (idx + 1))

/-- Final assembly of the UI reading from the scan results
(lines 361-415): the no-label branch returns SFTP/BROWSING/SETTINGS
sessions (SFTP with the fallback candidate host) or nothing; the label
branch splits on `'@'`, substitutes the SFTP candidate host for generic
hostnames, blanks hostnames of informational modes, and maps the mode. -/
def uiPost (label_text mode candidate_host : String) : Option Session :=
  if label_text = "" then
    if mode ∈ ["SFTP", "BROWSING", "SETTINGS"] then
      let fallback_host :=
        if mode = "SFTP" ∧ candidate_host ≠ "" then candidate_host else ""
      some { hostname := fallback_host, username := "", ip := ""
             port := "22", protocol := "SSH", mode := mode }
    else none
  else
    let parts :=
      match splitAtFirstAt label_text.data with
      | some (u, h) => (String.mk u, String.mk h)
      | none => ("", label_text)
    let username := parts.1
    let hostname0 := parts.2
    let hostname1 :=
      if mode = "SFTP" then
        let h1 :=
          if hostname0 = "" ∨ is_generic_label hostname0 then
            (if candidate_host ≠ "" then candidate_host else hostname0)
          else hostname0
        if is_generic_label h1 then "" else h1
      else hostname0
    let hostname2 :=
      if mode ∈ ["SETTINGS", "SNIPPETS", "LOGS", "BROWSING"] then "" else hostname1
    some { hostname := hostname2, username := username, ip := ""
           port := "22", protocol := "SSH"
           mode := if mode ∈ ["SFTP", "BROWSING", "SETTINGS", "SNIPPETS", "LOGS"] then
             mode else "SSH" }

/-- Source `_get_active_session_via_ui` (lines 203-417).  `env` is the
located Termius window (`none` when uiautomation is unavailable or no
window was found).  The descendant scan and the SFTP fallbacks run only
when the title produced no label, exactly as in the source. -/
def get_active_session_via_ui (env : Option Window) : Option Session :=
  match env with
  | none => none
  | some w =>
    let label0 := titleLabel w.title
    let mode0 := titleKeywordMode (pylower w.title)
    let res :=
      if label0 = "" then
        let st := scanCtrls ⟨"", mode0, ""⟩ w.descendants
        let ch1 :=
          if st.mode = "SFTP" ∧ st.candidate_host = "" then
            let r := fallbackTopbar w.descendants
            if r ≠ "" then r else st.candidate_host
          else st.candidate_host
        let ch2 :=
          if st.mode = "SFTP" ∧ ch1 = "" then
            match (fallbackTabNames w.descendants).getLast? with
            | some nm => nm
            | none => ch1
          else ch1
        let ch3 :=
          if st.mode = "SFTP" ∧ ch2 = "" then
            let r := fallbackSftpSiblings w.descendants
            if r ≠ "" then r else ch2
          else ch2
        (st.label_text, st.mode, ch3)
      else (label0, mode0, "")
    uiPost res.1 res.2.1 res.2.2

/-! ### Session Fusion Engine (source `get_termius_sessions`, lines 438-491) -/

/-- The UI modes that take absolute precedence in fusion (line 451). -/
def nonSshUiModes : List String := ["SFTP", "BROWSING", "SETTINGS", "SNIPPETS", "LOGS"]

/-- Hostname cleanup of fusion branch 1 (lines 452-454). -/
def cleanGenericHost (u : Session) : Session :=
  if is_generic_label u.hostname then { u with hostname := "" } else u

/-- Fusion when a network reading exists (lines 458-473): the SFTP override
(which drops the net `ip`), the non-generic UI hostname/username overlay,
or the net reading unchanged. -/
def fuseNet (ui : Option Session) (n : Session) : Session :=
  match ui with
  | some u =>
    if u.mode = "SFTP" then
      { hostname := "", username := "", ip := ""
        port := n.port, protocol := "SSH", mode := "SFTP" }
    else if u.hostname ≠ "" ∧ ¬ is_generic_label u.hostname then
      { n with hostname := u.hostname, username := u.username }
    else n
  | none => n

/-- Fusion when Termius is foreground without a network reading
(lines 476-488): keep a named UI mode, otherwise force IDLE; with no UI
reading return the synthetic IDLE session. -/
def fuseForeground (ui : Option Session) : List Session :=
  match ui with
  | some u =>
    [if u.mode ∈ nonSshUiModes then u else { u with mode := "IDLE" }]
  | none =>
    [{ hostname := "", username := "", ip := ""
       port := "", protocol := "SSH", mode := "IDLE" }]

/-- Source `get_termius_sessions` (lines 438-491), the fusion engine.
The foreground check `_is_termius_foreground()` is the `foreground`
parameter. -/
def get_termius_sessions (ui net : Option Session) (foreground : Bool) : List Session :=
  match ui with
  | some u =>
    if u.mode ∈ nonSshUiModes then [cleanGenericHost u]
    else
      match net with
      | some n => [fuseNet (some u) n]
      | none => if foreground then fuseForeground (some u) else []
  | none =>
    match net with
    | some n => [fuseNet none n]
    | none => if foreground then fuseForeground none else []

/-! ### Session Continuity Tracker (source `main`, lines 517-539 and 586-589) -/

/-- The identity key built in `main` (lines 527-534): protocol, optional
username, and the hostname or, when empty, the internal ip. -/
def identityKey (s : Session) : String :=
  let uname := s.username
  let host := s.hostname
  let internal_ip := s.ip
  let proto := if s.protocol = "" then "SSH" else s.protocol
  let identity_host := if host = "" then internal_ip else host
  if uname = "" then proto ++ ":" ++ identity_host
  else proto ++ ":" ++ uname ++ "@" ++ identity_host

/-- The continuity state owned by the poll loop (`current_key`,
`session_start_ts`). -/
structure TrackState where
  currentKey : Option String
  sessionStartTs : Option Nat
deriving DecidableEq, Repr

/-- One poll cycle of the continuity logic in `main`: when Termius is not
running both components reset (lines 586-589); when running and fusion
produced a session, a changed key stores the new key with the current time
and an unchanged key leaves the state untouched (lines 536-539); when
fusion produced nothing the state is untouched. -/
def trackStep (st : TrackState) (running : Bool) (sess : Option Session)
    (now : Nat) : TrackState :=
  if running then
    match sess with
    | some s =>
      let key := identityKey s
      if st.currentKey ≠ some key then
        { currentKey := some key, sessionStartTs := some now }
      else st
    | none => st
  else { currentKey := none, sessionStartTs := none }

/-! ### Presentation Mapper (source `main`, lines 541-568) -/

/-- The `texts` table of `config.json`; `_load_config` backfills every key
from the template, so all fields are present. -/
structure Texts where
  details_connected : String
  details_hosts : String
  details_settings : String
  details_snippets : String
  details_logs : String
  state_sftp : String
  state_browsing : String
  state_settings : String
  state_snippets : String
  state_logs : String
  state_idle : String
  state_active_ssh : String
  details_idle : String
deriving DecidableEq, Repr

/-- The mode to (state, details) mapping of `main` (lines 541-568),
including the literal "No active connections" details of the IDLE branch. -/
def presentation (t : Texts) (s : Session) : String × String :=
  let uname := s.username
  let host := s.hostname
  let mode := pyupper (if s.mode = "" then "SSH" else s.mode)
  let details := t.details_connected
  if mode = "SFTP" then (t.state_sftp, details)
  else if mode = "BROWSING" then (t.state_browsing, t.details_hosts)
  else if mode = "SETTINGS" then (t.state_settings, t.details_settings)
  else if mode = "SNIPPETS" then (t.state_snippets, t.details_snippets)
  else if mode = "LOGS" then (t.state_logs, t.details_logs)
  else if mode = "IDLE" then (t.state_idle, "No active connections")
  else if uname ≠ "" ∧ host ≠ "" then ("SSH to " ++ uname ++ "@" ++ host, details)
  else if host ≠ "" then ("SSH to " ++ host, details)
  else (t.state_active_ssh, details)

/-! ### Lemmas about the string primitives -/

/-- Dropping whitespace from the front ignores an all-whitespace prefix. -/
theorem dropWhile_ws_append (p l : List Char) (hp : ∀ c ∈ p, isWsChar c = true) :
    (p ++ l).dropWhile isWsChar = l.dropWhile isWsChar := by
  induction p with
  | nil => rfl
  | cons a t ih =>
    have ha : isWsChar a = true := hp a (by simp)
    rw [List.cons_append, List.dropWhile_cons, if_pos ha]
    exact ih (fun c hc => hp c (by simp [hc]))

/-- When something survives the front trim, appending on the right commutes
with it. -/
theorem dropWhile_append_of_ne_nil (l l₂ : List Char) (p : Char → Bool)
    (h : l.dropWhile p ≠ []) :
    (l ++ l₂).dropWhile p = l.dropWhile p ++ l₂ := by
  induction l with
  | nil => simp at h
  | cons a t ih =>
    by_cases hpa : p a
    · rw [List.cons_append, List.dropWhile_cons, if_pos hpa, List.dropWhile_cons,
        if_pos hpa]
      rw [List.dropWhile_cons, if_pos hpa] at h
      exact ih h
    · rw [List.cons_append, List.dropWhile_cons, if_neg hpa, List.dropWhile_cons,
        if_neg hpa, List.cons_append]

/-- ASCII lower-casing neither destroys nor creates whitespace characters. -/
theorem isWsChar_lowerC (c : Char) : isWsChar (lowerC c) = isWsChar c := by
  unfold lowerC
  split <;> first | decide | rfl

/-- Python `strip` is blind to surrounding whitespace: stripping
`p ++ l ++ q` with all-whitespace `p` and `q` equals stripping `l`. -/
theorem trimList_pad (p l q : List Char)
    (hp : ∀ c ∈ p, isWsChar c = true) (hq : ∀ c ∈ q, isWsChar c = true) :
    trimList (p ++ l ++ q) = trimList l := by
  unfold trimList
  rw [List.append_assoc, dropWhile_ws_append p (l ++ q) hp]
  by_cases h : l.dropWhile isWsChar = []
  · have hl : ∀ c ∈ l, isWsChar c = true := by
      simpa using List.dropWhile_eq_nil_iff.mp h
    have hq' : List.dropWhile isWsChar q = [] :=
      List.dropWhile_eq_nil_iff.mpr (by simpa using hq)
    rw [h, dropWhile_ws_append l q hl, hq']
  · rw [dropWhile_append_of_ne_nil l q _ h, List.reverse_append,
      dropWhile_ws_append q.reverse _ (fun c hc => hq c (List.mem_reverse.mp hc))]

/-- Front-trimming commutes with character-wise lower-casing. -/
theorem dropWhile_ws_map_lowerC (l : List Char) :
    (l.map lowerC).dropWhile isWsChar = (l.dropWhile isWsChar).map lowerC := by
  induction l with
  | nil => rfl
  | cons a t ih =>
    rw [List.map_cons, List.dropWhile_cons, List.dropWhile_cons, isWsChar_lowerC]
    by_cases ha : isWsChar a
    · rw [if_pos ha, if_pos ha, ih]
    · rw [if_neg ha, if_neg ha, List.map_cons]

/-- Python `strip` commutes with character-wise lower-casing. -/
theorem trimList_map_lowerC (l : List Char) :
    trimList (l.map lowerC) = (trimList l).map lowerC := by
  unfold trimList
  rw [dropWhile_ws_map_lowerC, ← List.map_reverse, dropWhile_ws_map_lowerC,
    ← List.map_reverse]

/-- C9: for every input string the label classifier is total (it is a Lean
function into `Bool`), it returns `true` on the empty string, its result is
unchanged by adding leading/trailing whitespace, and it is invariant under
the letter case of the input (two inputs equal up to ASCII case give the
same answer). -/
theorem label_classifier_total_invariant (s pre post t : String)
    (hpre : ∀ c ∈ pre.data, isWsChar c = true)
    (hpost : ∀ c ∈ post.data, isWsChar c = true)
    (hcase : pylower s = pylower t) :
    is_generic_label "" = true
    ∧ is_generic_label (pre ++ s ++ post) = is_generic_label s
    ∧ is_generic_label s = is_generic_label t := by
  refine ⟨by decide, ?_, ?_⟩
  · unfold is_generic_label
    rw [String.data_append, String.data_append, trimList_pad _ _ _ hpre hpost]
  · have hd : s.data.map lowerC = t.data.map lowerC := by
      have h := congrArg String.data hcase
      simpa [pylower] using h
    unfold is_generic_label
    rw [← trimList_map_lowerC, ← trimList_map_lowerC, hd]

/-- Witness for C9 at concrete inputs. -/
theorem label_classifier_total_invariant_witness :
    is_generic_label ("  " ++ "Termius" ++ "\t") = is_generic_label "Termius"
    ∧ is_generic_label "Termius" = is_generic_label "tERMIUS" := by
  have h := label_classifier_total_invariant "Termius" "  " "\t" "tERMIUS"
    (by decide) (by decide) (by decide)
  exact ⟨h.2.1, h.2.2⟩

/-! ### Lemmas about the readers -/

/-- The UI reader's assembly step never attaches a hostname to the four
informational modes (source lines 363-376 and 399-401). -/
theorem uiPost_info_hostname (l m c : String) (u : Session)
    (h : uiPost l m c = some u)
    (hm : u.mode = "BROWSING" ∨ u.mode = "SETTINGS" ∨ u.mode = "SNIPPETS"
      ∨ u.mode = "LOGS") :
    u.hostname = "" := by
  unfold uiPost at h
  split at h
  · split at h
    · rename_i hmem
      have hu := Option.some.inj h
      subst hu
      simp only at hm
      rcases hm with rfl | rfl | rfl | rfl <;>
        simp only [List.mem_cons, List.not_mem_nil, or_false] at hmem <;>
        rcases hmem with h1 | h1 | h1 <;> first
          | exact absurd h1 (by decide)
          | (rw [if_neg]; rintro ⟨h2, -⟩; exact absurd h2 (by decide))
    · exact Option.noConfusion h
  · have hu := Option.some.inj h
    subst hu
    simp only at hm ⊢
    split at hm
    · rename_i hmem5
      rw [if_pos]
      simp only [List.mem_cons, List.not_mem_nil, or_false] at hmem5 ⊢
      rcases hm with rfl | rfl | rfl | rfl <;> simp
    · rcases hm with h1 | h1 | h1 | h1 <;> exact absurd h1 (by decide)

/-- The UI reader never attaches a hostname to the four informational
modes. -/
theorem ui_reader_info_hostname (env : Option Window) (u : Session)
    (h : get_active_session_via_ui env = some u)
    (hm : u.mode = "BROWSING" ∨ u.mode = "SETTINGS" ∨ u.mode = "SNIPPETS"
      ∨ u.mode = "LOGS") :
    u.hostname = "" := by
  match env with
  | none => exact absurd h (by simp [get_active_session_via_ui])
  | some w =>
    unfold get_active_session_via_ui at h
    exact uiPost_info_hostname _ _ _ u h hm

/-- Every session built by the network reader has mode "SSH". -/
theorem net_reader_mode (sys : List Conn) (fb : List (List PConn))
    (pol : PrivacyPolicy) (dns : String → Option String) (s : Session)
    (h : get_active_session_via_net sys fb pol dns = some s) :
    s.mode = "SSH" := by
  unfold get_active_session_via_net at h
  rcases hc : findCandidate sys with _ | ⟨rip, rport⟩ <;> simp only [hc] at h
  · rcases hf : findFallback fb with _ | ⟨rip, rport⟩ <;> simp only [hf] at h
    · exact Option.noConfusion h
    · have hu := Option.some.inj h
      subst hu
      rfl
  · have hu := Option.some.inj h
    subst hu
    rfl

/-- Fusion preserves the informational-mode/empty-hostname invariant of the
readers: if every present UI reading satisfies it and every present network
reading has mode "SSH", every fused session satisfies it. -/
theorem fusion_info_hostname (ui net : Option Session) (fg : Bool) (s : Session)
    (hui : ∀ u, ui = some u →
      (u.mode = "BROWSING" ∨ u.mode = "SETTINGS" ∨ u.mode = "SNIPPETS"
        ∨ u.mode = "LOGS") → u.hostname = "")
    (hnet : ∀ n, net = some n → n.mode = "SSH")
    (hs : s ∈ get_termius_sessions ui net fg)
    (hm : s.mode = "BROWSING" ∨ s.mode = "SETTINGS" ∨ s.mode = "SNIPPETS"
      ∨ s.mode = "LOGS") :
    s.hostname = "" := by
  rcases ui with _ | u
  · rcases net with _ | n
    · rcases fg with _ | _
      · simp [get_termius_sessions] at hs
      · simp only [get_termius_sessions, if_true, fuseForeground,
          List.mem_singleton] at hs
        subst hs
        rcases hm with h1 | h1 | h1 | h1 <;> exact absurd h1 (by decide)
    · simp only [get_termius_sessions, fuseNet, List.mem_singleton] at hs
      rw [hs] at hm ⊢
      rw [hnet n rfl] at hm
      rcases hm with h1 | h1 | h1 | h1 <;> exact absurd h1 (by decide)
  · by_cases hin : u.mode ∈ nonSshUiModes
    · simp only [get_termius_sessions, if_pos hin, List.mem_singleton] at hs
      subst hs
      unfold cleanGenericHost at hm ⊢
      by_cases hg : is_generic_label u.hostname
      · simp [hg]
      · simp only [hg, Bool.false_eq_true, if_false] at hm ⊢
        exact hui u rfl hm
    · have hsftp : u.mode ≠ "SFTP" := fun h => hin (by rw [h]; decide)
      rcases net with _ | n
      · rcases fg with _ | _
        · simp [get_termius_sessions, hin] at hs
        · simp only [get_termius_sessions, if_neg hin, if_true,
            fuseForeground, List.mem_singleton] at hs
          subst hs
          have hmode : ({ u with mode := "IDLE" } : Session).mode = "IDLE" := rfl
          rw [hmode] at hm
          rcases hm with h1 | h1 | h1 | h1 <;> exact absurd h1 (by decide)
      · simp only [get_termius_sessions, if_neg hin, List.mem_singleton] at hs
        subst hs
        have hfn : fuseNet (some u) n =
            if u.hostname ≠ "" ∧ ¬ is_generic_label u.hostname then
              { n with hostname := u.hostname, username := u.username }
            else n := by
          simp [fuseNet, hsftp]
        rw [hfn] at hm ⊢
        by_cases hov : u.hostname ≠ "" ∧ ¬ is_generic_label u.hostname
        · rw [if_pos hov] at hm ⊢
          have hmode : ({ n with hostname := u.hostname, username := u.username } :
              Session).mode = n.mode := rfl
          rw [hmode, hnet n rfl] at hm
          rcases hm with h1 | h1 | h1 | h1 <;> exact absurd h1 (by decide)
        · rw [if_neg hov] at hm ⊢
          rw [hnet n rfl] at hm
          rcases hm with h1 | h1 | h1 | h1 <;> exact absurd h1 (by decide)

/-- C1: over all combinations of UI and network readings (every UI tree and
every connection snapshot, privacy policy and reverse-DNS behaviour), every
session returned by the fusion engine whose mode is BROWSING, SETTINGS,
SNIPPETS or LOGS has an empty hostname. -/
theorem fused_info_mode_empty_hostname (env : Option Window) (sys : List Conn)
    (fb : List (List PConn)) (pol : PrivacyPolicy) (dns : String → Option String)
    (fg : Bool) (s : Session)
    (hs : s ∈ get_termius_sessions (get_active_session_via_ui env)
      (get_active_session_via_net sys fb pol dns) fg)
    (hm : s.mode = "BROWSING" ∨ s.mode = "SETTINGS" ∨ s.mode = "SNIPPETS"
      ∨ s.mode = "LOGS") :
    s.hostname = "" :=
  fusion_info_hostname _ _ fg s
    (fun u hu => ui_reader_info_hostname env u hu)
    (fun n hn => net_reader_mode sys fb pol dns n hn) hs hm

/-- Witness for C1: a window titled "Termius - Hosts" with no connection
fuses to a BROWSING session, whose hostname is empty. -/
theorem fused_info_mode_empty_hostname_witness :
    (Session.mk "" "" "" "22" "SSH" "BROWSING") ∈
      get_termius_sessions (get_active_session_via_ui (some ⟨"Termius - Hosts", []⟩))
        (get_active_session_via_net [] [] ⟨true, false, false⟩ (fun _ => none)) true
    ∧ (Session.mk "" "" "" "22" "SSH" "BROWSING").hostname = "" :=
  ⟨by decide,
   fused_info_mode_empty_hostname (some ⟨"Termius - Hosts", []⟩) [] []
     ⟨true, false, false⟩ (fun _ => none) true _ (by decide) (Or.inl rfl)⟩

/-- C2 (divergence at the failing input): with no network reading and the
application not foreground, a UI reading in SFTP mode still produces a
session, so fusion does not return absent.  The UI reading here is the one
the UI reader itself produces for a window titled "Termius - SFTP". -/
theorem fusion_background_sftp_reported :
    get_termius_sessions (get_active_session_via_ui (some ⟨"Termius - SFTP", []⟩))
      (get_active_session_via_net [] [] ⟨true, false, false⟩ (fun _ => none)) false
      = [⟨"", "", "", "22", "SSH", "SFTP"⟩]
    ∧ get_termius_sessions (get_active_session_via_ui (some ⟨"Termius - SFTP", []⟩))
      (get_active_session_via_net [] [] ⟨true, false, false⟩ (fun _ => none)) false
      ≠ [] := by
  constructor <;> decide

/-- C3 counterexample: a UI reading in SFTP mode (as produced by the UI
reader for a window titled "Termius - SFTP") plus a network reading on
port 2222 fuse to the UI session itself: its port is "22", not the network
reading's "2222", its internal ip is empty rather than the network
reading's "10.0.0.5", and the continuity key is "SSH:", not computed from
that ip. -/
theorem fusion_sftp_net_counterexample :
    get_termius_sessions
      (get_active_session_via_ui (some ⟨"Termius - SFTP", []⟩))
      (get_active_session_via_net [⟨true, true, some ("10.0.0.5", 2222)⟩] []
        ⟨true, false, false⟩ (fun _ => none)) true
      = [⟨"", "", "", "22", "SSH", "SFTP"⟩]
    ∧ get_active_session_via_net [⟨true, true, some ("10.0.0.5", 2222)⟩] []
        ⟨true, false, false⟩ (fun _ => none)
      = some ⟨"", "", "10.0.0.5", "2222", "SSH", "SSH"⟩
    ∧ (Session.mk "" "" "" "22" "SSH" "SFTP").port ≠ "2222"
    ∧ (Session.mk "" "" "" "22" "SSH" "SFTP").ip = ""
    ∧ identityKey ⟨"", "", "", "22", "SSH", "SFTP"⟩ = "SSH:"
    ∧ ("SSH:" : String) ≠ "SSH:10.0.0.5" := by
  refine ⟨by decide, by decide, by decide, rfl, by decide, by decide⟩

/-- C3 amended: when the UI reading has mode SFTP, fusion returns exactly
the UI reading with its hostname cleared when generic; the network reading
(present or absent) is ignored entirely, so none of its fields — port or
internal ip — reach the fused session or the continuity key. -/
theorem fusion_sftp_prefers_ui_amended (u : Session) (net : Option Session)
    (fg : Bool) (hm : u.mode = "SFTP") :
    get_termius_sessions (some u) net fg = [cleanGenericHost u] := by
  have hin : u.mode ∈ nonSshUiModes := by rw [hm]; decide
  simp [get_termius_sessions, hin]

/-- Witness for the amended C3 at the counterexample's input. -/
theorem fusion_sftp_prefers_ui_amended_witness :
    get_termius_sessions (some ⟨"", "", "", "22", "SSH", "SFTP"⟩)
      (some ⟨"", "", "10.0.0.5", "2222", "SSH", "SSH"⟩) true
      = [cleanGenericHost ⟨"", "", "", "22", "SSH", "SFTP"⟩] :=
  fusion_sftp_prefers_ui_amended ⟨"", "", "", "22", "SSH", "SFTP"⟩
    (some ⟨"", "", "10.0.0.5", "2222", "SSH", "SSH"⟩) true rfl

/-- C5: foreground with no network and no UI reading fuses to the
synthetic IDLE session whose string-typed fields (hostname, username, ip,
port — the fields the data model types as plain strings) are all empty. -/
theorem fusion_foreground_idle_synthetic :
    get_termius_sessions none none true = [⟨"", "", "", "", "SSH", "IDLE"⟩]
    ∧ (Session.mk "" "" "" "" "SSH" "IDLE").mode = "IDLE"
    ∧ (Session.mk "" "" "" "" "SSH" "IDLE").hostname = ""
    ∧ (Session.mk "" "" "" "" "SSH" "IDLE").username = ""
    ∧ (Session.mk "" "" "" "" "SSH" "IDLE").ip = ""
    ∧ (Session.mk "" "" "" "" "SSH" "IDLE").port = "" := by
  exact ⟨rfl, rfl, rfl, rfl, rfl, rfl⟩

/-- A candidate produced by the system-wide scan has an SSH-family port. -/
theorem findCandidate_port (l : List Conn) (rip : String) (rport : Nat)
    (h : findCandidate l = some (rip, rport)) : rport ∈ sshPortSet := by
  induction l with
  | nil => exact Option.noConfusion h
  | cons c rest ih =>
    unfold findCandidate at h
    split at h
    · exact ih h
    · split at h
      · exact ih h
      · split at h
        · exact ih h
        · rename_i rip' rport' heq
          split at h
          · rename_i hmem
            obtain ⟨h1, h2⟩ := Prod.mk.injEq .. ▸ Option.some.inj h
            exact h2 ▸ hmem
          · exact ih h

/-- A candidate produced by a per-process scan has an SSH-family port. -/
theorem findProcCandidate_port (l : List PConn) (rip : String) (rport : Nat)
    (h : findProcCandidate l = some (rip, rport)) : rport ∈ sshPortSet := by
  induction l with
  | nil => exact Option.noConfusion h
  | cons c rest ih =>
    unfold findProcCandidate at h
    split at h
    · exact ih h
    · split at h
      · exact ih h
      · rename_i rip' rport' heq
        split at h
        · rename_i hmem
          obtain ⟨h1, h2⟩ := Prod.mk.injEq .. ▸ Option.some.inj h
          exact h2 ▸ hmem
        · exact ih h

/-- A candidate produced by the fallback pass has an SSH-family port. -/
theorem findFallback_port (ls : List (List PConn)) (rip : String) (rport : Nat)
    (h : findFallback ls = some (rip, rport)) : rport ∈ sshPortSet := by
  induction ls with
  | nil => exact Option.noConfusion h
  | cons p ps ih =>
    unfold findFallback at h
    split at h
    · rename_i c hc
      obtain rfl := Option.some.inj h
      exact findProcCandidate_port p rip rport hc
    · exact ih h

/-- C10: every session returned by the network reader has protocol "SSH" —
the candidate filter only accepts remote ports in {22, 2222, 2200, 2022},
so the "TCP" value of the protocol expression is unreachable. -/
theorem net_reader_protocol_ssh (sys : List Conn) (fb : List (List PConn))
    (pol : PrivacyPolicy) (dns : String → Option String) (s : Session)
    (h : get_active_session_via_net sys fb pol dns = some s) :
    s.protocol = "SSH" := by
  unfold get_active_session_via_net at h
  rcases hc : findCandidate sys with _ | ⟨rip, rport⟩ <;> simp only [hc] at h
  · rcases hf : findFallback fb with _ | ⟨rip, rport⟩ <;> simp only [hf] at h
    · exact Option.noConfusion h
    · have hu := Option.some.inj h
      subst hu
      have hp := findFallback_port fb rip rport hf
      simp only [if_pos hp]
  · have hu := Option.some.inj h
    subst hu
    have hp := findCandidate_port sys rip rport hc
    simp only [if_pos hp]

/-- Witness for C10: a single established Termius-owned connection to
port 2200 yields a session with protocol "SSH". -/
theorem net_reader_protocol_ssh_witness :
    ∃ s, get_active_session_via_net [⟨true, true, some ("192.168.1.9", 2200)⟩] []
      ⟨true, false, false⟩ (fun _ => none) = some s ∧ s.protocol = "SSH" :=
  ⟨⟨"", "", "192.168.1.9", "2200", "SSH", "SSH"⟩, by decide,
   net_reader_protocol_ssh [⟨true, true, some ("192.168.1.9", 2200)⟩] []
     ⟨true, false, false⟩ (fun _ => none) ⟨"", "", "192.168.1.9", "2200", "SSH", "SSH"⟩
     (by decide)⟩

/-- C4: whenever the network reader returns a session, its username is
empty; its hostname is empty unless `expose_ip_in_presence` is set (then it
is the literal ip), or, failing that, `allow_reverse_dns` is set (then it
is the reverse-DNS answer, empty when the lookup fails); and its ip field
carries the literal remote ip of the accepted candidate connection. -/
theorem net_reader_privacy (sys : List Conn) (fb : List (List PConn))
    (pol : PrivacyPolicy) (dns : String → Option String) (s : Session)
    (h : get_active_session_via_net sys fb pol dns = some s) :
    s.username = ""
    ∧ s.hostname = (if pol.expose_ip_in_presence then s.ip
        else if pol.allow_reverse_dns then
          (match dns s.ip with
           | some hst => hst
           | none => "")
        else "")
    ∧ (∃ rip rport, s.ip = rip ∧ s.port = toString rport ∧
        (findCandidate sys = some (rip, rport)
          ∨ (findCandidate sys = none ∧ findFallback fb = some (rip, rport)))) := by
  unfold get_active_session_via_net at h
  rcases hc : findCandidate sys with _ | ⟨rip, rport⟩ <;> simp only [hc] at h
  · rcases hf : findFallback fb with _ | ⟨rip, rport⟩ <;> simp only [hf] at h
    · exact Option.noConfusion h
    · have hu := Option.some.inj h
      subst hu
      exact ⟨rfl, rfl, rip, rport, rfl, rfl, Or.inr ⟨rfl, rfl⟩⟩
  · have hu := Option.some.inj h
    subst hu
    exact ⟨rfl, rfl, rip, rport, rfl, rfl, Or.inl rfl⟩

/-- Witness for C4: with both privacy flags off, the returned hostname is
empty while the ip field carries the literal remote ip. -/
theorem net_reader_privacy_witness :
    get_active_session_via_net [⟨true, true, some ("10.1.2.3", 22)⟩] []
      ⟨true, false, false⟩ (fun _ => some "resolved.example")
      = some ⟨"", "", "10.1.2.3", "22", "SSH", "SSH"⟩
    ∧ (Session.mk "" "" "10.1.2.3" "22" "SSH" "SSH").username = ""
    ∧ (Session.mk "" "" "10.1.2.3" "22" "SSH" "SSH").hostname = "" := by
  refine ⟨by decide, ?_, ?_⟩
  · exact (net_reader_privacy [⟨true, true, some ("10.1.2.3", 22)⟩] []
      ⟨true, false, false⟩ (fun _ => some "resolved.example")
      ⟨"", "", "10.1.2.3", "22", "SSH", "SSH"⟩ (by decide)).1
  · have h := (net_reader_privacy [⟨true, true, some ("10.1.2.3", 22)⟩] []
      ⟨true, false, false⟩ (fun _ => some "resolved.example")
      ⟨"", "", "10.1.2.3", "22", "SSH", "SSH"⟩ (by decide)).2.1
    exact h.trans (by decide)

/-- C6: the continuity tracker's per-cycle behaviour.  When the target
application is not running, both the key and the timestamp reset to empty.
When running with a fused session: an unchanged identity key leaves the
whole state (in particular the start timestamp) untouched; a changed key
stores the new key together with the current time, which is strictly
greater than the previously stored timestamp whenever the clock advanced
between the cycles. -/
theorem continuity_tracker_spec (st : TrackState) (s : Session)
    (sess : Option Session) (now prev : Nat) :
    (trackStep st false sess now = ⟨none, none⟩)
    ∧ (st.currentKey = some (identityKey s) → trackStep st true (some s) now = st)
    ∧ (st.currentKey ≠ some (identityKey s) →
        (trackStep st true (some s) now).currentKey = some (identityKey s)
        ∧ (trackStep st true (some s) now).sessionStartTs = some now
        ∧ (st.sessionStartTs = some prev → prev < now →
            ∃ newTs, (trackStep st true (some s) now).sessionStartTs = some newTs
              ∧ prev < newTs)) := by
  refine ⟨rfl, ?_, ?_⟩
  · intro hk
    simp [trackStep, hk]
  · intro hk
    have hne : st.currentKey ≠ some (identityKey s) := hk
    refine ⟨?_, ?_, ?_⟩
    · simp [trackStep, if_pos hne]
    · simp [trackStep, if_pos hne]
    · intro hprev hlt
      exact ⟨now, by simp [trackStep, if_pos hne], hlt⟩

/-- Witness for C6: a key change at time 9 over a state stamped at time 5
stores the new key and the strictly greater timestamp 9; a non-running
cycle resets the state. -/
theorem continuity_tracker_spec_witness :
    trackStep ⟨some "SSH:alpha", some 5⟩ false none 9 = ⟨none, none⟩
    ∧ (trackStep ⟨some "SSH:alpha", some 5⟩ true
        (some ⟨"beta", "", "", "22", "SSH", "SSH"⟩) 9).currentKey = some "SSH:beta"
    ∧ (trackStep ⟨some "SSH:alpha", some 5⟩ true
        (some ⟨"beta", "", "", "22", "SSH", "SSH"⟩) 9).sessionStartTs = some 9
    ∧ (5 : Nat) < 9 := by
  have h := continuity_tracker_spec ⟨some "SSH:alpha", some 5⟩
    ⟨"beta", "", "", "22", "SSH", "SSH"⟩ none 9 5
  have h3 := h.2.2 (by decide)
  refine ⟨h.1, ?_, h3.2.1, by decide⟩
  have hk : identityKey (⟨"beta", "", "", "22", "SSH", "SSH"⟩ : Session)
      = "SSH:beta" := by decide
  rw [← hk]
  exact h3.1

/-- C7: with a network reading present, a UI reading whose mode is none of
the five named non-SSH modes and whose hostname is non-empty and
non-generic, fusion returns the network session with hostname and username
overwritten by the UI reading's, keeping the network reading's ip and port
and — the network reader always emits mode "SSH" — mode "SSH". -/
theorem fusion_overlay_ui_label (u n : Session) (fg : Bool)
    (hmode : ¬ u.mode ∈ nonSshUiModes)
    (hhost : u.hostname ≠ "")
    (hgen : is_generic_label u.hostname = false)
    (hnet : n.mode = "SSH") :
    get_termius_sessions (some u) (some n) fg =
      [{ n with hostname := u.hostname, username := u.username }]
    ∧ ({ n with hostname := u.hostname, username := u.username } : Session).hostname
        = u.hostname
    ∧ ({ n with hostname := u.hostname, username := u.username } : Session).username
        = u.username
    ∧ ({ n with hostname := u.hostname, username := u.username } : Session).ip = n.ip
    ∧ ({ n with hostname := u.hostname, username := u.username } : Session).port = n.port
    ∧ ({ n with hostname := u.hostname, username := u.username } : Session).mode
        = "SSH" := by
  have hsftp : u.mode ≠ "SFTP" := fun h => hmode (by rw [h]; decide)
  refine ⟨?_, rfl, rfl, rfl, rfl, hnet⟩
  simp only [get_termius_sessions, if_neg hmode]
  simp [fuseNet, hsftp, hhost, hgen]

/-- Witness for C7 at the spec's own example: net {ip 10.0.0.5, port 22}
plus ui {hostname prod-db, username alice} fuse to
{hostname prod-db, username alice, ip 10.0.0.5, mode SSH}. -/
theorem fusion_overlay_ui_label_witness :
    get_termius_sessions (some ⟨"prod-db", "alice", "", "22", "SSH", "SSH"⟩)
      (some ⟨"", "", "10.0.0.5", "22", "SSH", "SSH"⟩) true
      = [⟨"prod-db", "alice", "10.0.0.5", "22", "SSH", "SSH"⟩] :=
  (fusion_overlay_ui_label ⟨"prod-db", "alice", "", "22", "SSH", "SSH"⟩
    ⟨"", "", "10.0.0.5", "22", "SSH", "SSH"⟩ true
    (by decide) (by decide) (by decide) rfl).1

/-- C8 (divergence at the failing input): for an IDLE session the
presentation mapper takes `state` from the configured `texts.state_idle`
but hard-codes `details` to the literal "No active connections", ignoring
the configured `texts.details_idle` (here "Away"). -/
theorem presentation_idle_details_hardcoded :
    presentation ⟨"Connected via Termius", "Termius Hosts", "Termius Settings",
        "Termius Snippets", "Termius Logs", "Browsing in SFTP",
        "Browsing for servers", "Viewing settings", "Viewing Snippets",
        "Viewing logs", "My idle state", "Active SSH session", "Away"⟩
      ⟨"", "", "", "", "SSH", "IDLE"⟩
      = ("My idle state", "No active connections")
    ∧ (Texts.mk "Connected via Termius" "Termius Hosts" "Termius Settings"
        "Termius Snippets" "Termius Logs" "Browsing in SFTP"
        "Browsing for servers" "Viewing settings" "Viewing Snippets"
        "Viewing logs" "My idle state" "Active SSH session" "Away").details_idle
      = "Away"
    ∧ ("No active connections" : String) ≠ "Away" := by
  refine ⟨by decide, rfl, by decide⟩
